import Mathlib

/-!
Shallow embedding of the yolov5-tensorrt detector core
(`src/yolov5_detector.cpp`, `src/yolov5_detector_internal.cpp`,
`src/yolov5_detection.cpp`) and proofs about its specification.

Machine `int` values are modelled as `ℤ`; `float`/`double` values are
modelled as `ℚ` (all operations appearing in the verified code paths are
exact field operations and comparisons, so the rational model is faithful
up to rounding of products/quotients, which none of the verified
properties depend on).  C++ float→int conversion truncates toward zero,
modelled by `cppTrunc`.
-/

namespace Yolov5

/-- The `yolov5::Result` error taxonomy (`yolov5_common.hpp`). -/
inductive Result where
  | success
  | failureInvalidInput
  | failureNotInitialized
  | failureNotLoaded
  | failureModelError
  | failureOpencvNoCuda
  | failureFilesystemError
  | failureCudaError
  | failureTensorrtError
  | failureOpencvError
  | failureAlloc
  | failureOther
deriving DecidableEq, Repr

/-- C++ conversion from a floating value to `int`: truncation toward zero. -/
def cppTrunc (q : ℚ) : ℤ := if 0 ≤ q then ⌊q⌋ else ⌈q⌉

/-- `cv::Rect` (integer fields). -/
structure Rect where
  x : ℤ
  y : ℤ
  width : ℤ
  height : ℤ
deriving DecidableEq, Repr

/-- `yolov5::internal::PreprocessorTransform`: original image size,
uniform scale factor, left/top letterbox padding. -/
structure PreprocessorTransform where
  inputWidth : ℤ
  inputHeight : ℤ
  f : ℚ
  leftWidth : ℤ
  topHeight : ℤ
deriving DecidableEq, Repr

/-- The default constructor `PreprocessorTransform()`:
`_inputSize(0, 0), _f(1), _leftWidth(0), _topHeight(0)`. -/
def PreprocessorTransform.mkDefault : PreprocessorTransform :=
  { inputWidth := 0, inputHeight := 0, f := 1, leftWidth := 0, topHeight := 0 }

/-- `PreprocessorTransform::transformBbox`
(`yolov5_detector_internal.cpp` lines 316-337): map a network-space box
back to original-image space and clamp to the original bounds. -/
def PreprocessorTransform.transformBbox (t : PreprocessorTransform)
    (input : Rect) : Rect :=
  let rx0 : ℤ := cppTrunc (((input.x - t.leftWidth : ℤ) : ℚ) / t.f)
  let rx : ℤ := max 0 (min rx0 (t.inputWidth - 1))
  let ry0 : ℤ := cppTrunc (((input.y - t.topHeight : ℤ) : ℚ) / t.f)
  let ry : ℤ := max 0 (min ry0 (t.inputHeight - 1))
  let rw0 : ℤ := cppTrunc ((input.width : ℚ) / t.f)
  let rw : ℤ := if rx + rw0 > t.inputWidth then t.inputWidth - rx else rw0
  let rh0 : ℤ := cppTrunc ((input.height : ℚ) / t.f)
  let rh : ℤ := if ry + rh0 > t.inputHeight then t.inputHeight - ry else rh0
  { x := rx, y := ry, width := rw, height := rh }

/-- The quantities computed by the letterbox branch of
`CvCpuPreprocessor::process` (`yolov5_detector_internal.cpp` lines
534-548): scale factor, scaled box size, and the four paddings. -/
structure LetterboxResult where
  f : ℚ
  scaledWidth : ℤ
  scaledHeight : ℤ
  topHeight : ℤ
  bottomHeight : ℤ
  leftWidth : ℤ
  rightWidth : ℤ
deriving DecidableEq, Repr

/-- Letterbox computation of `CvCpuPreprocessor::process` for an image of
size `imgCols × imgRows` (that branch runs when the image size differs
from the network size).  `cv::Size(input.cols * f, input.rows * f)`
converts `double` to `int` by truncation; `std::floor(dr / 2.0)` and
`std::ceil(dr / 2.0)` are the floor/ceil of the exact halves. -/
def letterbox (networkRows networkCols imgRows imgCols : ℤ) :
    LetterboxResult :=
  let f : ℚ := min ((networkRows : ℚ) / (imgRows : ℚ))
                   ((networkCols : ℚ) / (imgCols : ℚ))
  let boxWidth : ℤ := cppTrunc ((imgCols : ℚ) * f)
  let boxHeight : ℤ := cppTrunc ((imgRows : ℚ) * f)
  let dr : ℤ := networkRows - boxHeight
  let dc : ℤ := networkCols - boxWidth
  { f := f
    scaledWidth := boxWidth
    scaledHeight := boxHeight
    topHeight := ⌊(dr : ℚ) / 2⌋
    bottomHeight := ⌈(dr : ℚ) / 2⌉
    leftWidth := ⌊(dc : ℚ) / 2⌋
    rightWidth := ⌈(dc : ℚ) / 2⌉ }

/-- The transform recorded in `_transforms[index]` by
`CvCpuPreprocessor::process`: identity when the image already matches the
network size, otherwise the letterbox transform `(input.size(), f,
leftWidth, topHeight)`. -/
def recordedTransform (networkRows networkCols imgRows imgCols : ℤ) :
    PreprocessorTransform :=
  if imgRows = networkRows ∧ imgCols = networkCols then
    { inputWidth := imgCols, inputHeight := imgRows,
      f := 1, leftWidth := 0, topHeight := 0 }
  else
    let lb := letterbox networkRows networkCols imgRows imgCols
    { inputWidth := imgCols, inputHeight := imgRows,
      f := lb.f, leftWidth := lb.leftWidth, topHeight := lb.topHeight }

/-- One binding of a deserialized engine: name, dimensions, direction. -/
structure TrtBinding where
  name : String
  dims : List ℤ
  isInput : Bool
deriving DecidableEq, Repr

/-- A deserialized `nvinfer1::ICudaEngine`, abstracted to the binding
table it answers `getBindingIndex` / `getBindingDimensions` /
`bindingIsInput` queries from. -/
structure CudaEngine where
  bindings : List TrtBinding
deriving DecidableEq, Repr

/-- `internal::dimsVolume` (`yolov5_detector_internal.cpp` lines 49-62):
product of the dimensions, 0 when there are none. -/
def dimsVolume (dims : List ℤ) : ℤ :=
  if 0 < dims.length then dims.foldl (fun r d => r * d) 1 else 0

/-- `internal::EngineBinding`: name, tensor index, shape, element volume,
direction flag. -/
structure EngineBinding where
  index : ℤ
  name : String
  dims : List ℤ
  volume : ℤ
  isInput : Bool
deriving DecidableEq, Repr

/-- `EngineBinding::isDynamic` (`yolov5_detector_internal.cpp` lines
129-139): true iff some dimension equals -1. -/
def EngineBinding.isDynamic (b : EngineBinding) : Bool :=
  b.dims.any (fun d => d == -1)

/-- `EngineBinding::setup` by name (`yolov5_detector_internal.cpp` lines
166-190): look the name up with `getBindingIndex` (first matching index,
-1 = failure), then read dimensions, volume and direction. -/
def EngineBinding.setup (engine : CudaEngine) (name : String) :
    Option EngineBinding :=
  match engine.bindings.findIdx? (fun b => b.name == name) with
  | none => none
  | some i =>
    let b := engine.bindings.getD i ⟨"", [], false⟩
    some { index := (i : ℤ), name := name, dims := b.dims,
           volume := dimsVolume b.dims, isInput := b.isInput }

/-- `internal::DeviceMemory`: one device buffer per binding; buffers are
abstracted to their allocated sizes in floats. -/
structure DeviceMemory where
  memory : List ℤ
deriving DecidableEq, Repr

/-- `DeviceMemory::setup` (`yolov5_detector_internal.cpp` lines 250-283):
allocate one device buffer per binding, sized to the binding's volume;
a failing `cudaMalloc` (position given by the environment) aborts with a
CUDA error and the partially built set is discarded by the caller. -/
def DeviceMemory.setup (engine : CudaEngine) (mallocFailsAt : Option ℕ) :
    Except Result DeviceMemory :=
  match mallocFailsAt with
  | some i =>
      if i < engine.bindings.length then Except.error Result.failureCudaError
      else Except.ok ⟨engine.bindings.map (fun b => dimsVolume b.dims)⟩
  | none => Except.ok ⟨engine.bindings.map (fun b => dimsVolume b.dims)⟩

/-- The state of a `Detector` (`yolov5_detector.hpp` members): lifecycle
flag, thresholds, engine/context handles, validated bindings, device
memory, host-side output staging memory and the class table. -/
structure DetectorState where
  initialized : Bool
  scoreThreshold : ℚ
  nmsThreshold : ℚ
  trtEngine : Option CudaEngine
  trtExecutionContext : Option CudaEngine
  inputBinding : EngineBinding
  outputBinding : EngineBinding
  deviceMemory : DeviceMemory
  outputHostMemory : List ℚ
  classes : List String
deriving DecidableEq, Repr

/-- `Detector::isEngineLoaded`: whether `_trtEngine` holds an engine. -/
def DetectorState.isEngineLoaded (s : DetectorState) : Bool :=
  s.trtEngine.isSome

/-- `Detector::_batchSize`: `_inputBinding.dims().d[0]`. -/
def DetectorState.batchSize (s : DetectorState) : ℤ :=
  s.inputBinding.dims.getD 0 0

/-- `Detector::_numClasses`: `_outputBinding.dims().d[2] - 5`. -/
def DetectorState.numClasses (s : DetectorState) : ℤ :=
  s.outputBinding.dims.getD 2 0 - 5

/-- Environment for the fallible external steps of `Detector::_loadEngine`:
the engine the TensorRT runtime deserializes from the given bytes (none on
deserialization failure), whether execution-context creation succeeds,
the position of the first failing `cudaMalloc` (none = all succeed), and
whether the host output-buffer allocation succeeds. -/
structure LoadEnv where
  deserialized : Option CudaEngine
  contextOk : Bool
  cudaMallocFailsAt : Option ℕ
  hostAllocOk : Bool

/-- `Detector::_loadEngine` (`yolov5_detector.cpp` lines 546-669): try to
deserialize, create an execution context, set up and validate the two
bindings, allocate device memory, allocate host output memory, and only
then swap everything into the live state. -/
def loadEngineStep (s : DetectorState) (env : LoadEnv) :
    Result × DetectorState :=
  match env.deserialized with
  | none => (Result.failureTensorrtError, s)
  | some engine =>
    if ¬ env.contextOk then (Result.failureTensorrtError, s)
    else
      match EngineBinding.setup engine "images" with
      | none => (Result.failureModelError, s)
      | some input =>
        if input.dims.length ≠ 4 then (Result.failureModelError, s)
        else if input.isDynamic then (Result.failureModelError, s)
        else
          match EngineBinding.setup engine "output" with
          | none => (Result.failureModelError, s)
          | some output =>
            if output.dims.length ≠ 3 then (Result.failureModelError, s)
            else if output.isDynamic then (Result.failureModelError, s)
            else
              match DeviceMemory.setup engine env.cudaMallocFailsAt with
              | Except.error r => (r, s)
              | Except.ok memory =>
                if ¬ env.hostAllocOk then (Result.failureAlloc, s)
                else
                  (Result.success,
                   { s with
                      trtEngine := some engine,
                      trtExecutionContext := some engine,
                      deviceMemory := memory,
                      outputHostMemory :=
                        List.replicate output.volume.toNat 0,
                      inputBinding := input,
                      outputBinding := output })

/-- `Detector::loadEngine(const std::vector<char>&)` (`yolov5_detector.cpp`
lines 208-220): requires the detector to be initialized. -/
def DetectorState.loadEngine (s : DetectorState) (env : LoadEnv) :
    Result × DetectorState :=
  if ¬ s.initialized then (Result.failureNotInitialized, s)
  else loadEngineStep s env

/-- One iteration of the class-score loop of `Detector::_decodeOutput`
(`yolov5_detector.cpp` lines 825-833): update the running
(maxClassScore, maxScoreIndex) pair when `ptr[5 + i] > maxClassScore`. -/
def classMaxStep (ptr : ℕ → ℚ) (acc : ℚ × ℕ) (i : ℕ) : ℚ × ℕ :=
  if ptr (5 + i) > acc.1 then (ptr (5 + i), i) else acc

/-- The class-score loop of `Detector::_decodeOutput`: the accumulator
starts at `maxClassScore = 0.0`, `maxScoreIndex = 0`. -/
def classMax (ptr : ℕ → ℚ) (nrClasses : ℕ) : ℚ × ℕ :=
  (List.range nrClasses).foldl (classMaxStep ptr) (0, 0)

/-- Decoding of one output-tensor row by `Detector::_decodeOutput`
(`yolov5_detector.cpp` lines 812-858).  `ptr j` is the j-th float of the
row; `none` means the row is skipped (`continue`), `some` carries the
computed `(x, y, w, h, score, classId)` locals. -/
def decodeRow (ptr : ℕ → ℚ) (nrClasses : ℕ) (scoreThreshold : ℚ) :
    Option (ℚ × ℚ × ℚ × ℚ × ℚ × ℕ) :=
  let objectness := ptr 4
  if objectness < scoreThreshold then none
  else
    let m := classMax ptr nrClasses
    let score := objectness * m.1
    if score < scoreThreshold then none
    else
      let w := ptr 2
      let h := ptr 3
      some (ptr 0 - w / 2, ptr 1 - h / 2, w, h, score, m.2)

/-- Modelled from the claim's words (not from the source): classScore is
the true maximum of row[5..5+numClasses) with the first (lowest) index
kept on exact ties — the fold is seeded with the first class score
instead of 0. -/
def classMaxClaimed (ptr : ℕ → ℚ) (nrClasses : ℕ) : ℚ × ℕ :=
  (List.range nrClasses).foldl (classMaxStep ptr) (ptr 5, 0)

/-- Modelled from the claim's words (not from the source): row decoding
using the true maximum class score. -/
def decodeRowClaimed (ptr : ℕ → ℚ) (nrClasses : ℕ) (scoreThreshold : ℚ) :
    Option (ℚ × ℚ × ℚ × ℚ × ℚ × ℕ) :=
  let objectness := ptr 4
  if objectness < scoreThreshold then none
  else
    let m := classMaxClaimed ptr nrClasses
    let score := objectness * m.1
    if score < scoreThreshold then none
    else
      let w := ptr 2
      let h := ptr 3
      some (ptr 0 - w / 2, ptr 1 - h / 2, w, h, score, m.2)

/-- A concrete output row: objectness 1, single class score -1. -/
def negScoreRow : ℕ → ℚ := fun j => if j = 4 then 1 else if j = 5 then -1 else 0

/-- `yolov5::Detection` (`yolov5_detection.cpp`): class id, bounding box
in original-image coordinates, clamped score, optional class name. -/
structure Detection where
  classId : ℤ
  boundingBox : Rect
  score : ℚ
  className : String
deriving DecidableEq, Repr

/-- Environment for the external steps of `detect`/`detectBatch`: the
preprocessor setup outcome, the per-image `process` outcomes, the
enqueue/copy/synchronize outcomes of `_inference`, the host output buffer
contents after the device-to-host copy, the transforms recorded by the
preprocessor, and the per-image index list returned by the external
`cv::dnn::NMSBoxes` call (none = it threw). -/
structure DetectEnv where
  setupOk : Bool
  processFails : ℕ → Bool
  enqueueOk : Bool
  memcpyOk : Bool
  syncOk : Bool
  outputHost : ℕ → ℚ
  transforms : ℕ → PreprocessorTransform
  nmsKeep : ℕ → Option (List ℕ)

/-- `Detector::_inference` (`yolov5_detector.cpp` lines 765-795): enqueue,
device-to-host copy of the output, synchronize. -/
def inferenceStep (env : DetectEnv) : Except Result Unit :=
  if ¬ env.enqueueOk then Except.error Result.failureTensorrtError
  else if ¬ env.memcpyOk then Except.error Result.failureCudaError
  else if ¬ env.syncOk then Except.error Result.failureCudaError
  else Except.ok ()

/-- `Detector::_decodeOutput` (`yolov5_detector.cpp` lines 797-905) for
image slot `index`: decode every row of the output slice, hand the
surviving boxes to the external NMS, then transform each kept box to
original-image coordinates, clamp the score to [0,1] and attach a class
name when a class table is loaded. -/
def decodeOutput (s : DetectorState) (env : DetectEnv) (index : ℕ) :
    Except Result (List Detection) :=
  let nrClasses := s.numClasses.toNat
  let numGridBoxes := (s.outputBinding.dims.getD 1 0).toNat
  let rowSize := (s.outputBinding.dims.getD 2 0).toNat
  let base := index * numGridBoxes * rowSize
  let rows := (List.range numGridBoxes).filterMap (fun i =>
      decodeRow (fun j => env.outputHost (base + i * rowSize + j))
        nrClasses s.scoreThreshold)
  let boxes := rows.map (fun r =>
      ({ x := cppTrunc r.1, y := cppTrunc r.2.1,
         width := cppTrunc r.2.2.1, height := cppTrunc r.2.2.2.1 } : Rect))
  let scores := rows.map (fun r => r.2.2.2.2.1)
  let classIds := rows.map (fun r => (r.2.2.2.2.2 : ℤ))
  match env.nmsKeep index with
  | none => Except.error Result.failureOpencvError
  | some indices =>
    Except.ok (indices.map (fun j =>
      let bbox := (env.transforms index).transformBbox
          (boxes.getD j ⟨0, 0, 0, 0⟩)
      let score := max 0 (min 1 (scores.getD j 0))
      let cid := classIds.getD j 0
      { classId := cid
        boundingBox := bbox
        score := score
        className :=
          if 0 < s.classes.length then
            (if 0 ≤ cid ∧ cid < (s.classes.length : ℤ) then
              s.classes.getD cid.toNat "" else "")
          else "" }))

/-- `Detector::_detect` (`yolov5_detector.cpp` lines 700-723): inference,
decode of slot 0, and only on success the swap of the local result into
the caller's output when the output pointer is non-null. -/
def detectInner (s : DetectorState) (env : DetectEnv)
    (out : Option (List Detection)) : Result × Option (List Detection) :=
  match inferenceStep env with
  | Except.error r => (r, out)
  | Except.ok _ =>
    match decodeOutput s env 0 with
    | Except.error r => (r, out)
    | Except.ok lst =>
      match out with
      | none => (Result.success, none)
      | some _ => (Result.success, some lst)

/-- `Detector::_detectBatch` (`yolov5_detector.cpp` lines 725-763):
inference, decode of each image slot in order (aborting on the first
failure with the caller's output untouched), then the swap into the
caller's output when the output pointer is non-null. -/
def detectBatchInner (s : DetectorState) (env : DetectEnv) (nrImages : ℕ)
    (out : Option (List (List Detection))) :
    Result × Option (List (List Detection)) :=
  match inferenceStep env with
  | Except.error r => (r, out)
  | Except.ok _ =>
    match (List.range nrImages).mapM (decodeOutput s env) with
    | Except.error r => (r, out)
    | Except.ok lst =>
      match out with
      | none => (Result.success, none)
      | some _ => (Result.success, some lst)

/-- `Detector::detect` (`yolov5_detector.cpp` lines 269-299): requires a
loaded engine, sets up the preprocessor, processes the single image, then
runs `_detect`.  `out` models the caller's output pointer (`none` =
`nullptr`). -/
def DetectorState.detect (s : DetectorState) (env : DetectEnv)
    (out : Option (List Detection)) : Result × Option (List Detection) :=
  if ¬ s.isEngineLoaded then (Result.failureNotLoaded, out)
  else if ¬ env.setupOk then (Result.failureOther, out)
  else if env.processFails 0 then (Result.failureOther, out)
  else detectInner s env out

/-- `Detector::detectBatch` (`yolov5_detector.cpp` lines 341-389):
requires a loaded engine, a non-empty image list no larger than the
model's batch size, sets up the preprocessor, processes every image, then
runs `_detectBatch`. -/
def DetectorState.detectBatch (s : DetectorState) (env : DetectEnv)
    (nrImages : ℕ) (out : Option (List (List Detection))) :
    Result × Option (List (List Detection)) :=
  if ¬ s.isEngineLoaded then (Result.failureNotLoaded, out)
  else if nrImages = 0 then (Result.failureInvalidInput, out)
  else if (nrImages : ℤ) > s.batchSize then (Result.failureInvalidInput, out)
  else
    let numProcessed := (min (nrImages : ℤ) s.batchSize).toNat
    if ¬ env.setupOk then (Result.failureOther, out)
    else if (List.range numProcessed).any (fun i => env.processFails i) then
      (Result.failureOther, out)
    else detectBatchInner s env numProcessed out

/-- `Detector::setScoreThreshold` (`yolov5_detector.cpp` lines 455-468). -/
def DetectorState.setScoreThreshold (s : DetectorState) (v : ℚ) :
    Result × DetectorState :=
  if v < 0 ∨ v > 1 then (Result.failureInvalidInput, s)
  else (Result.success, { s with scoreThreshold := v })

/-- `Detector::setNmsThreshold` (`yolov5_detector.cpp` lines 475-488). -/
def DetectorState.setNmsThreshold (s : DetectorState) (v : ℚ) :
    Result × DetectorState :=
  if v < 0 ∨ v > 1 then (Result.failureInvalidInput, s)
  else (Result.success, { s with nmsThreshold := v })

/-- The state of a `yolov5::Classes` instance: the class-name table and
whether a logger has been attached. -/
structure ClassesState where
  names : List String
  hasLogger : Bool
deriving DecidableEq, Repr

/-- `Classes::load` (`yolov5_detection.cpp` lines 148-180).  Note the
guard of the empty-list check in the source is
`names.size() == 0 && _logger`. -/
def ClassesState.load (c : ClassesState) (names : List String) :
    Result × ClassesState :=
  if names.length = 0 ∧ c.hasLogger then (Result.failureInvalidInput, c)
  else (Result.success, { c with names := names })

/-- `Classes::isLoaded`: the table is loaded iff it is non-empty. -/
def ClassesState.isLoaded (c : ClassesState) : Bool :=
  0 < c.names.length

/-- A default-constructed binding record used to populate example
detector states. -/
def exampleBinding : EngineBinding :=
  { index := 0, name := "", dims := [], volume := 0, isInput := false }

/-- An initialized detector with no engine loaded. -/
def exampleState : DetectorState :=
  { initialized := true, scoreThreshold := 0, nmsThreshold := 0,
    trtEngine := none, trtExecutionContext := none,
    inputBinding := exampleBinding, outputBinding := exampleBinding,
    deviceMemory := ⟨[]⟩, outputHostMemory := [], classes := [] }

/-- An engine whose "images" binding has only 3 dimensions. -/
def badEngine : CudaEngine :=
  ⟨[{ name := "images", dims := [1, 3, 640], isInput := true },
    { name := "output", dims := [1, 25200, 85], isInput := false }]⟩

/-- A load environment in which every external step succeeds. -/
def badLoadEnv : LoadEnv :=
  { deserialized := some badEngine, contextOk := true,
    cudaMallocFailsAt := none, hostAllocOk := true }

/-- A detector with a (batch size 2) engine loaded. -/
def loadedState : DetectorState :=
  { exampleState with
      trtEngine := some badEngine,
      trtExecutionContext := some badEngine,
      inputBinding :=
        { index := 0, name := "images", dims := [2, 3, 640, 640],
          volume := 2457600, isInput := true },
      outputBinding :=
        { index := 1, name := "output", dims := [2, 25200, 85],
          volume := 4284000, isInput := false } }

/-- A detect environment in which every external step succeeds. -/
def exampleDetectEnv : DetectEnv :=
  { setupOk := true, processFails := fun _ => false, enqueueOk := true,
    memcpyOk := true, syncOk := true, outputHost := fun _ => 0,
    transforms := fun _ => PreprocessorTransform.mkDefault,
    nmsKeep := fun _ => some [] }

/-- `List.range 1` is the singleton list. -/
theorem range_one : List.range 1 = [0] := rfl

/-- Unfolding the class-score loop by one iteration. -/
theorem classMax_succ (ptr : ℕ → ℚ) (n : ℕ) :
    classMax ptr (n + 1) = classMaxStep ptr (classMax ptr n) n := by
  unfold classMax
  rw [List.range_succ, List.foldl_append, List.foldl_cons, List.foldl_nil]

/-- Characterization of the class-score loop: the result is the maximum
of 0 and the class scores; when that maximum is positive the returned
index is the first index attaining it, otherwise the index is 0. -/
theorem classMax_spec (ptr : ℕ → ℚ) (n : ℕ) :
    0 ≤ (classMax ptr n).1 ∧
    (∀ j, j < n → ptr (5 + j) ≤ (classMax ptr n).1) ∧
    (0 < (classMax ptr n).1 →
      (classMax ptr n).2 < n ∧
      ptr (5 + (classMax ptr n).2) = (classMax ptr n).1 ∧
      ∀ j, j < (classMax ptr n).2 → ptr (5 + j) < (classMax ptr n).1) ∧
    ((classMax ptr n).1 ≤ 0 →
      (classMax ptr n).1 = 0 ∧ (classMax ptr n).2 = 0) := by
  induction n with
  | zero =>
    refine ⟨le_refl 0, ?_, ?_, ?_⟩
    · intro j hj; omega
    · intro h; exact absurd h (lt_irrefl 0)
    · intro _; exact ⟨rfl, rfl⟩
  | succ n ih =>
    obtain ⟨ih0, ihle, ihpos, ihz⟩ := ih
    rw [classMax_succ]
    unfold classMaxStep
    by_cases hgt : ptr (5 + n) > (classMax ptr n).1
    · rw [if_pos hgt]
      have hpos : (0 : ℚ) < ptr (5 + n) := lt_of_le_of_lt ih0 hgt
      refine ⟨le_of_lt hpos, ?_, ?_, ?_⟩
      · intro j hj
        rcases Nat.lt_succ_iff_lt_or_eq.mp hj with hj | hj
        · exact le_of_lt (lt_of_le_of_lt (ihle j hj) hgt)
        · rw [hj]
      · intro _
        refine ⟨Nat.lt_succ_self n, rfl, ?_⟩
        intro j hj
        exact lt_of_le_of_lt (ihle j hj) hgt
      · intro h
        exact absurd hpos (not_lt.mpr h)
    · rw [if_neg hgt]
      refine ⟨ih0, ?_, ?_, ihz⟩
      · intro j hj
        rcases Nat.lt_succ_iff_lt_or_eq.mp hj with hj | hj
        · exact ihle j hj
        · rw [hj]; exact not_lt.mp hgt
      · intro h
        obtain ⟨hlt, heq, hfirst⟩ := ihpos h
        exact ⟨Nat.lt_succ_of_lt hlt, heq, hfirst⟩

/-- C3 counterexample: on the row with objectness 1 and single class
score -1, with scoreThreshold 0, the claim predicts the row is skipped
(classScore = -1, combinedScore = -1 < 0), but the code keeps it with
classScore 0, because the argmax accumulator starts at 0 rather than at
the first class score. -/
theorem C3_counterexample_negative_class_score :
    decodeRow negScoreRow 1 0 = some (0, 0, 0, 0, 0, 0) ∧
    decodeRowClaimed negScoreRow 1 0 = none := by
  constructor
  · unfold decodeRow classMax classMaxStep negScoreRow
    norm_num [range_one]
  · unfold decodeRowClaimed classMaxClaimed classMaxStep negScoreRow
    norm_num [range_one]

/-- C3 (amended): per output row `ptr` the decode step skips the row when
`ptr 4 < scoreThreshold`; otherwise classScore is the maximum of 0 and
the class scores `ptr (5+j)` (the loop accumulator starts at 0), classId
is the first (lowest) index attaining that maximum when it is positive
and 0 otherwise, combinedScore = `ptr 4 * classScore`, the row is skipped
when combinedScore < scoreThreshold, and otherwise the produced box is
w = `ptr 2`, h = `ptr 3`, x = `ptr 0 - w/2`, y = `ptr 1 - h/2`. -/
theorem C3_decodeRow_amended (ptr : ℕ → ℚ) (nrClasses : ℕ)
    (scoreThreshold : ℚ) :
    ∃ classScore classId,
      0 ≤ classScore ∧
      (∀ j, j < nrClasses → ptr (5 + j) ≤ classScore) ∧
      (0 < classScore → classId < nrClasses ∧
        ptr (5 + classId) = classScore ∧
        ∀ j, j < classId → ptr (5 + j) < classScore) ∧
      (classScore ≤ 0 → classScore = 0 ∧ classId = 0) ∧
      decodeRow ptr nrClasses scoreThreshold =
        (if ptr 4 < scoreThreshold then none
         else if ptr 4 * classScore < scoreThreshold then none
         else some (ptr 0 - ptr 2 / 2, ptr 1 - ptr 3 / 2, ptr 2, ptr 3,
                    ptr 4 * classScore, classId)) := by
  have h := classMax_spec ptr nrClasses
  exact ⟨(classMax ptr nrClasses).1, (classMax ptr nrClasses).2,
    h.1, h.2.1, h.2.2.1, h.2.2.2, rfl⟩

/-- Ceiling on ℚ expressed through the floor, for numeric evaluation. -/
theorem ceil_eq_neg_floor_neg (a : ℚ) : ⌈a⌉ = -⌊-a⌋ := by
  rw [Int.floor_neg, neg_neg]

/-- Truncation of an integral value is the value itself. -/
theorem cppTrunc_intCast (n : ℤ) : cppTrunc (n : ℚ) = n := by
  unfold cppTrunc
  split
  · exact Int.floor_intCast n
  · exact Int.ceil_intCast n

/-- Containment lemma for `transformBbox` over any transform whose recorded
input size is at least 1×1. -/
theorem transformBbox_mem (t : PreprocessorTransform) (b : Rect)
    (hW : 1 ≤ t.inputWidth) (hH : 1 ≤ t.inputHeight) :
    0 ≤ (t.transformBbox b).x ∧ (t.transformBbox b).x ≤ t.inputWidth - 1 ∧
    0 ≤ (t.transformBbox b).y ∧ (t.transformBbox b).y ≤ t.inputHeight - 1 ∧
    (t.transformBbox b).x + (t.transformBbox b).width ≤ t.inputWidth ∧
    (t.transformBbox b).y + (t.transformBbox b).height ≤ t.inputHeight := by
  unfold PreprocessorTransform.transformBbox
  dsimp only
  constructor
  · omega
  constructor
  · omega
  constructor
  · omega
  constructor
  · omega
  constructor
  · split <;> omega
  · split <;> omega

/-- In both branches of `CvCpuPreprocessor::process`, the recorded
transform stores the original image size. -/
theorem recordedTransform_inputSize (networkRows networkCols imgRows imgCols : ℤ) :
    (recordedTransform networkRows networkCols imgRows imgCols).inputWidth
        = imgCols ∧
    (recordedTransform networkRows networkCols imgRows imgCols).inputHeight
        = imgRows := by
  unfold recordedTransform
  split <;> exact ⟨rfl, rfl⟩

/-- C5: for every transform recorded by preprocessing an image of positive
size W×H, and every network-space box, the transformed box has
`x ∈ [0, W-1]`, `y ∈ [0, H-1]`, `x + width ≤ W` and `y + height ≤ H`:
it never exceeds the original image bounds. -/
theorem C5_transformBbox_within_original_bounds
    (networkRows networkCols imgRows imgCols : ℤ) (b : Rect)
    (hW : 1 ≤ imgCols) (hH : 1 ≤ imgRows) :
    0 ≤ ((recordedTransform networkRows networkCols imgRows imgCols).transformBbox b).x ∧
    ((recordedTransform networkRows networkCols imgRows imgCols).transformBbox b).x
        ≤ imgCols - 1 ∧
    0 ≤ ((recordedTransform networkRows networkCols imgRows imgCols).transformBbox b).y ∧
    ((recordedTransform networkRows networkCols imgRows imgCols).transformBbox b).y
        ≤ imgRows - 1 ∧
    ((recordedTransform networkRows networkCols imgRows imgCols).transformBbox b).x
        + ((recordedTransform networkRows networkCols imgRows imgCols).transformBbox b).width
        ≤ imgCols ∧
    ((recordedTransform networkRows networkCols imgRows imgCols).transformBbox b).y
        + ((recordedTransform networkRows networkCols imgRows imgCols).transformBbox b).height
        ≤ imgRows := by
  have hsz := recordedTransform_inputSize networkRows networkCols imgRows imgCols
  have h := transformBbox_mem
    (recordedTransform networkRows networkCols imgRows imgCols) b
    (by rw [hsz.1]; exact hW) (by rw [hsz.2]; exact hH)
  rw [hsz.1, hsz.2] at h
  exact h

/-- C5 witness: concrete instance of the containment theorem. -/
theorem C5_witness :
    (1 : ℤ) ≤ 1280 ∧ (1 : ℤ) ≤ 720 ∧
    0 ≤ ((recordedTransform 640 640 720 1280).transformBbox
          ⟨-999, 5000, 5000, -3⟩).x := by
  refine ⟨by norm_num, by norm_num, ?_⟩
  exact (C5_transformBbox_within_original_bounds 640 640 720 1280
      ⟨-999, 5000, 5000, -3⟩ (by norm_num) (by norm_num)).1

/-- C4: for a 1280×720 image letterboxed into a 640×640 network input,
preprocessing computes f = 1/2, scaled size 640×360, paddings
top = bottom = 140 and left = right = 0, and the recorded transform maps
the network-space box (300, 160, 40, 40) to (600, 40, 80, 80) in
original-image coordinates. -/
theorem C4_letterbox_scenario_1280x720 :
    letterbox 640 640 720 1280 =
      { f := 1/2, scaledWidth := 640, scaledHeight := 360,
        topHeight := 140, bottomHeight := 140,
        leftWidth := 0, rightWidth := 0 } ∧
    (recordedTransform 640 640 720 1280).transformBbox
        ⟨300, 160, 40, 40⟩ = ⟨600, 40, 80, 80⟩ := by
  have hmin : min ((640:ℚ)/720) ((640:ℚ)/1280) = 1/2 := by norm_num
  have hrec : recordedTransform 640 640 720 1280 =
      { inputWidth := 1280, inputHeight := 720, f := 1/2,
        leftWidth := 0, topHeight := 140 } := by
    unfold recordedTransform letterbox
    rw [if_neg (by norm_num)]
    simp only [hmin, cppTrunc]
    norm_num
  constructor
  · unfold letterbox
    simp only [hmin, cppTrunc, LetterboxResult.mk.injEq]
    norm_num [ceil_eq_neg_floor_neg]
  · rw [hrec]
    unfold PreprocessorTransform.transformBbox
    simp only [cppTrunc, Rect.mk.injEq]
    norm_num

/-- C8 counterexample: the default-constructed transform is not the
identity on bounding boxes: it maps (300, 160, 40, 40) to (0, 0, 0, 0),
because its recorded input size is 0×0 and `transformBbox` clamps to that
extent. -/
theorem C8_counterexample_default_not_identity :
    PreprocessorTransform.mkDefault.transformBbox ⟨300, 160, 40, 40⟩ ≠
      ⟨300, 160, 40, 40⟩ := by
  unfold PreprocessorTransform.mkDefault PreprocessorTransform.transformBbox
  simp only [cppTrunc, Rect.mk.injEq]
  norm_num

/-- C8 (amended): the default-constructed transform has scale factor 1 and
zero padding, but its recorded input size is 0×0, so `transformBbox`
clamps every box to that empty extent: it returns x = 0, y = 0,
width = min(width, 0), height = min(height, 0) instead of the box
unchanged. -/
theorem C8_default_transform_clamps_to_empty (b : Rect) :
    PreprocessorTransform.mkDefault.transformBbox b =
      { x := 0, y := 0, width := min b.width 0, height := min b.height 0 } := by
  unfold PreprocessorTransform.mkDefault PreprocessorTransform.transformBbox
  simp only [Int.sub_zero, div_one, cppTrunc_intCast, Rect.mk.injEq]
  refine ⟨by omega, by omega, ?_, ?_⟩ <;> · split <;> omega

/-- C7: setScoreThreshold and setNmsThreshold reject a value outside
[0,1] with the invalid-input result, leaving the stored threshold
unchanged, and store the value with success when it lies in [0,1]. -/
theorem C7_threshold_setters (s : DetectorState) (v : ℚ) :
    ((v < 0 ∨ v > 1) →
      s.setScoreThreshold v = (Result.failureInvalidInput, s) ∧
      s.setNmsThreshold v = (Result.failureInvalidInput, s)) ∧
    (0 ≤ v → v ≤ 1 →
      s.setScoreThreshold v =
        (Result.success, { s with scoreThreshold := v }) ∧
      s.setNmsThreshold v =
        (Result.success, { s with nmsThreshold := v })) := by
  unfold DetectorState.setScoreThreshold DetectorState.setNmsThreshold
  constructor
  · intro h
    rw [if_pos h, if_pos h]
    exact ⟨rfl, rfl⟩
  · intro h0 h1
    have hno : ¬ (v < 0 ∨ v > 1) := by
      push_neg
      exact ⟨h0, h1⟩
    rw [if_neg hno, if_neg hno]
    exact ⟨rfl, rfl⟩

/-- C7 witness: rejecting 2 leaves the threshold state unchanged. -/
theorem C7_witness :
    ((2 : ℚ) < 0 ∨ (2 : ℚ) > 1) ∧
    exampleState.setScoreThreshold 2 =
      (Result.failureInvalidInput, exampleState) := by
  have h : (2 : ℚ) < 0 ∨ (2 : ℚ) > 1 := Or.inr (by norm_num)
  exact ⟨h, ((C7_threshold_setters exampleState 2).1 h).1⟩

/-- C9: the code contradicts the claim on one point: with no logger
attached, `Classes::load` of an empty name list returns success instead
of a failure, because the empty-list guard in the source is
`names.size() == 0 && _logger`.  With a logger attached it fails as
claimed, and even in the logger-less case the table ends up not loaded
(no partial state). -/
theorem C9_empty_load_result :
    (ClassesState.load ⟨[], false⟩ []).1 = Result.success ∧
    ((ClassesState.load ⟨[], false⟩ []).2).isLoaded = false ∧
    (ClassesState.load ⟨[], true⟩ []).1 = Result.failureInvalidInput := by
  refine ⟨?_, ?_, ?_⟩ <;> rfl

/-- C2: when the deserialized engine's "images" binding does not have
exactly 4 dimensions or has a -1 dimension, or its "output" binding does
not have exactly 3 dimensions or has a -1 dimension, `loadEngine` returns
the model-error result code and leaves the detector state unchanged (the
new engine is not installed). -/
theorem C2_binding_validation (s : DetectorState) (env : LoadEnv)
    (engine : CudaEngine) (input output : EngineBinding)
    (hinit : s.initialized = true)
    (hdes : env.deserialized = some engine)
    (hctx : env.contextOk = true)
    (hin : EngineBinding.setup engine "images" = some input)
    (hout : EngineBinding.setup engine "output" = some output)
    (hbad : input.dims.length ≠ 4 ∨ input.isDynamic = true ∨
            output.dims.length ≠ 3 ∨ output.isDynamic = true) :
    s.loadEngine env = (Result.failureModelError, s) := by
  unfold DetectorState.loadEngine loadEngineStep
  simp only [hinit, hdes, hctx, hin, hout, not_true, if_false]
  rcases hbad with h | h | h | h
  · simp [h]
  · by_cases h4 : input.dims.length ≠ 4 <;> simp [h4, h]
  · by_cases h4 : input.dims.length ≠ 4 <;>
      by_cases hd : input.isDynamic <;> simp [h4, hd, h]
  · by_cases h4 : input.dims.length ≠ 4 <;>
      by_cases hd : input.isDynamic <;>
      by_cases h3 : output.dims.length ≠ 3 <;> simp [h4, hd, h3, h]

/-- C2 witness: loading an engine whose "images" binding has 3
dimensions fails with a model error and installs nothing. -/
theorem C2_witness :
    exampleState.loadEngine badLoadEnv =
      (Result.failureModelError, exampleState) :=
  C2_binding_validation exampleState badLoadEnv badEngine
    { index := 0, name := "images", dims := [1, 3, 640], volume := 1920,
      isInput := true }
    { index := 1, name := "output", dims := [1, 25200, 85],
      volume := 2142000, isInput := false }
    rfl rfl rfl rfl rfl (Or.inl (by decide))

/-- `DeviceMemory::setup` only fails with the CUDA error code. -/
theorem deviceMemorySetup_error (engine : CudaEngine) (m : Option ℕ)
    (r : Result) (h : DeviceMemory.setup engine m = Except.error r) :
    r = Result.failureCudaError := by
  unfold DeviceMemory.setup at h
  cases m with
  | none => exact nomatch h
  | some i =>
    dsimp only at h
    by_cases hi : i < engine.bindings.length
    · rw [if_pos hi] at h
      cases h
      rfl
    · rw [if_neg hi] at h
      exact nomatch h

/-- C1: a failing `loadEngine` call on an initialized detector leaves the
live engine, execution context, bindings, device memory and host output
memory (and all other state) unchanged, and the new state is installed
only when deserialization, context creation, binding validation, device
memory allocation and host output allocation have all succeeded. -/
theorem C1_loadEngine_atomic (s : DetectorState) (env : LoadEnv)
    (hinit : s.initialized = true) :
    ((s.loadEngine env).1 ≠ Result.success → (s.loadEngine env).2 = s) ∧
    ((s.loadEngine env).1 = Result.success →
      ∃ engine input output memory,
        env.deserialized = some engine ∧
        env.contextOk = true ∧
        EngineBinding.setup engine "images" = some input ∧
        input.dims.length = 4 ∧ input.isDynamic = false ∧
        EngineBinding.setup engine "output" = some output ∧
        output.dims.length = 3 ∧ output.isDynamic = false ∧
        DeviceMemory.setup engine env.cudaMallocFailsAt =
          Except.ok memory ∧
        env.hostAllocOk = true ∧
        (s.loadEngine env).2 =
          { s with
              trtEngine := some engine,
              trtExecutionContext := some engine,
              deviceMemory := memory,
              outputHostMemory := List.replicate output.volume.toNat 0,
              inputBinding := input,
              outputBinding := output }) := by
  unfold DetectorState.loadEngine loadEngineStep
  rw [hinit, if_neg (by simp)]
  cases hdes : env.deserialized with
  | none => simp
  | some engine =>
    dsimp only
    cases hctx : env.contextOk with
    | false => simp
    | true =>
      rw [if_neg (by simp)]
      cases hin : EngineBinding.setup engine "images" with
      | none => simp
      | some input =>
        dsimp only
        by_cases h4 : input.dims.length ≠ 4
        · rw [if_pos h4]; simp
        · rw [if_neg h4]
          cases hd : input.isDynamic with
          | true => rw [if_pos rfl]; simp
          | false =>
            rw [if_neg (by simp)]
            cases hout : EngineBinding.setup engine "output" with
            | none => simp
            | some output =>
              dsimp only
              by_cases h3 : output.dims.length ≠ 3
              · rw [if_pos h3]; simp
              · rw [if_neg h3]
                cases hod : output.isDynamic with
                | true => rw [if_pos rfl]; simp
                | false =>
                  rw [if_neg (by simp)]
                  cases hm : DeviceMemory.setup engine env.cudaMallocFailsAt with
                  | error r =>
                    dsimp only
                    refine ⟨fun _ => rfl, fun h => ?_⟩
                    rw [deviceMemorySetup_error engine
                          env.cudaMallocFailsAt r hm] at h
                    exact absurd h (by decide)
                  | ok memory =>
                    dsimp only
                    cases hha : env.hostAllocOk with
                    | false => simp
                    | true =>
                      rw [if_neg (by simp)]
                      refine ⟨fun hne => absurd rfl hne, fun _ => ?_⟩
                      exact ⟨engine, input, output, memory, rfl, rfl, hin,
                        by omega, hd, hout, by omega, hod, hm, rfl, rfl⟩

/-- C1 witness: a load whose deserialization fails returns a TensorRT
error and leaves the detector state (here: one with an engine already
loaded) unchanged. -/
theorem C1_witness :
    (loadedState.loadEngine
        { deserialized := none, contextOk := true,
          cudaMallocFailsAt := none, hostAllocOk := true }).2 =
      loadedState := by
  refine (C1_loadEngine_atomic loadedState
      { deserialized := none, contextOk := true,
        cudaMallocFailsAt := none, hostAllocOk := true } rfl).1 ?_
  decide

/-- C6: with an engine loaded, `detectBatch` with an empty image list, or
with more images than the model's batch size, returns the invalid-input
result code and returns the caller's output argument unchanged. -/
theorem C6_detectBatch_invalid_count (s : DetectorState) (env : DetectEnv)
    (n : ℕ) (out : Option (List (List Detection)))
    (hld : s.isEngineLoaded = true)
    (hbad : n = 0 ∨ (n : ℤ) > s.batchSize) :
    s.detectBatch env n out = (Result.failureInvalidInput, out) := by
  unfold DetectorState.detectBatch
  rw [hld, if_neg (by simp)]
  rcases hbad with h | h
  · rw [if_pos h]
  · by_cases h0 : n = 0
    · rw [if_pos h0]
    · rw [if_neg h0, if_pos h]

/-- C6 witness: 3 images against a batch-size-2 engine yield
invalid-input with the output list untouched. -/
theorem C6_witness :
    loadedState.detectBatch exampleDetectEnv 3 (some [[], [], []]) =
      (Result.failureInvalidInput, some [[], [], []]) :=
  C6_detectBatch_invalid_count loadedState exampleDetectEnv 3
    (some [[], [], []]) rfl (Or.inr (by decide))

/-- `_decodeOutput` succeeds whenever the external NMS call returns. -/
theorem decodeOutput_ok (s : DetectorState) (env : DetectEnv) (i : ℕ)
    (h : (env.nmsKeep i).isSome = true) :
    ∃ lst, decodeOutput s env i = Except.ok lst := by
  cases hk : env.nmsKeep i with
  | none => rw [hk] at h; exact nomatch h
  | some ids =>
    refine ⟨?_, ?_⟩
    · exact (ids.map (fun j =>
        let rows := (List.range ((s.outputBinding.dims.getD 1 0).toNat)).filterMap
          (fun r => decodeRow
            (fun k => env.outputHost
              (i * (s.outputBinding.dims.getD 1 0).toNat *
                (s.outputBinding.dims.getD 2 0).toNat +
                r * (s.outputBinding.dims.getD 2 0).toNat + k))
            s.numClasses.toNat s.scoreThreshold)
        let boxes := rows.map (fun r =>
          ({ x := cppTrunc r.1, y := cppTrunc r.2.1,
             width := cppTrunc r.2.2.1, height := cppTrunc r.2.2.2.1 } : Rect))
        let scores := rows.map (fun r => r.2.2.2.2.1)
        let classIds := rows.map (fun r => (r.2.2.2.2.2 : ℤ))
        let bbox := (env.transforms i).transformBbox (boxes.getD j ⟨0, 0, 0, 0⟩)
        let score := max 0 (min 1 (scores.getD j 0))
        let cid := classIds.getD j 0
        { classId := cid
          boundingBox := bbox
          score := score
          className :=
            if 0 < s.classes.length then
              (if 0 ≤ cid ∧ cid < (s.classes.length : ℤ) then
                s.classes.getD cid.toNat "" else "")
            else "" }))
    · unfold decodeOutput
      rw [hk]

/-- Mapping a fallible step over a list succeeds when every element
succeeds. -/
theorem mapM_ok_of_all_ok {α β : Type} (f : α → Except Result β)
    (l : List α) (h : ∀ a ∈ l, ∃ b, f a = Except.ok b) :
    ∃ bs, l.mapM f = Except.ok bs := by
  induction l with
  | nil => exact ⟨[], rfl⟩
  | cons a l ih =>
    obtain ⟨b, hb⟩ := h a (List.mem_cons_self a l)
    obtain ⟨bs, hbs⟩ := ih (fun x hx => h x (List.mem_cons_of_mem a hx))
    refine ⟨b :: bs, ?_⟩
    rw [List.mapM_cons, hb, hbs]
    rfl

/-- C10: with an engine loaded and every precondition and external stage
succeeding, `detect` and `detectBatch` called with a null output pointer
run the whole pipeline, return success, and discard the decoded
detections without ever storing through the pointer. -/
theorem C10_null_output_pointer (s : DetectorState) (env : DetectEnv)
    (n : ℕ)
    (hld : s.isEngineLoaded = true)
    (hsetup : env.setupOk = true)
    (hproc : ∀ i, env.processFails i = false)
    (henq : env.enqueueOk = true)
    (hmem : env.memcpyOk = true)
    (hsync : env.syncOk = true)
    (hnms : ∀ i, (env.nmsKeep i).isSome = true)
    (h1 : 1 ≤ n) (hn : (n : ℤ) ≤ s.batchSize) :
    s.detect env none = (Result.success, none) ∧
    s.detectBatch env n none = (Result.success, none) := by
  have hinf : inferenceStep env = Except.ok () := by
    unfold inferenceStep
    rw [henq, hmem, hsync]
    rfl
  constructor
  · unfold DetectorState.detect
    rw [hld, if_neg (by simp), hsetup, if_neg (by simp), hproc 0,
      if_neg (by simp)]
    unfold detectInner
    rw [hinf]
    obtain ⟨lst, hl⟩ := decodeOutput_ok s env 0 (hnms 0)
    rw [hl]
  · unfold DetectorState.detectBatch
    rw [hld, if_neg (by simp), if_neg (by omega), if_neg (by omega),
      hsetup, if_neg (by simp)]
    rw [if_neg ?hany]
    case hany =>
      simp only [List.any_eq_true]
      rintro ⟨i, _, hi⟩
      rw [hproc i] at hi
      exact nomatch hi
    unfold detectBatchInner
    rw [hinf]
    obtain ⟨lsts, hls⟩ := mapM_ok_of_all_ok (decodeOutput s env)
      (List.range (min (n : ℤ) s.batchSize).toNat)
      (fun a _ => decodeOutput_ok s env a (hnms a))
    rw [hls]

/-- C10 witness: a single-image detect with a null output pointer on a
loaded detector succeeds. -/
theorem C10_witness :
    loadedState.detect exampleDetectEnv none = (Result.success, none) :=
  (C10_null_output_pointer loadedState exampleDetectEnv 1 rfl rfl
    (fun _ => rfl) rfl rfl rfl (fun _ => rfl) (by decide) (by decide)).1

end Yolov5
